import Mathlib

/-!
Shallow embedding of the consultor-inteligente-api repository
(src/backend_logic.py and src/api.py).

Conventions of the embedding:
* Python dict keys that the source reads with `d.get(key, default)` become
  `Option` fields read with `Option.getD`/`Option.bind`; keys read with a
  subscript `d[key]` (which raises `KeyError` when absent) become `Option`
  fields whose absence makes the enclosing operation return `none`.
* A Python function that can raise is embedded as a function into `Option`;
  `none` is an escaped exception.
* JSON numbers that take part in arithmetic or comparisons (the quality
  ratings) are embedded as `Rat`; numeric fields that are only ever
  interpolated into HTML are embedded as the `String` the host language
  would render (and a parameter `fstr : Rat → String` stands for the host
  language's number-to-string rendering where a rating is displayed).
* Calls into the remote generative service, and the standard library's
  random primitives, are parameters of the embedded functions; theorems
  constrain them by the documented behaviour of those primitives
  (`random.sample` returns `k` distinct elements of the population, etc.).
-/

/-- Detailed per-feature quality ratings (`avaliacoes.notas_detalhadas`).
Each key may be absent; the source reads them with `.get(key, 0)`. -/
structure NotasDetalhadas where
  camera_principal : Option Rat
  bateria : Option Rat
  desempenho : Option Rat
  tela : Option Rat
  design : Option Rat
deriving DecidableEq

/-- Evaluation data of a phone (`avaliacoes`). -/
structure Avaliacoes where
  notas_detalhadas : Option NotasDetalhadas
  custo_beneficio : Option Rat
  avaliacao_geral : Option Rat
  positivos_percebidos : Option (List String)
  perfil_ideal : Option String
deriving DecidableEq

/-- Identification block of a phone (`identificacao`). -/
structure Identificacao where
  nome_completo : Option String
  modelo : Option String
  imagem_url : Option String
deriving DecidableEq

/-- Screen specification; `tamanho_polegadas` is display-only, embedded as
its rendered text. -/
structure TelaSpec where
  tamanho_polegadas : Option String
deriving DecidableEq

/-- Battery specification; display-only. -/
structure BateriaSpec where
  capacidade_mah : Option String
deriving DecidableEq

/-- Main camera specification; display-only. -/
structure CameraPrincipalSpec where
  megapixels : Option String
deriving DecidableEq

/-- Cameras block. -/
structure CamerasSpec where
  principal : Option CameraPrincipalSpec
deriving DecidableEq

/-- Performance block; `memoria_ram_gb` is a JSON list whose first element
is displayed (`[0]` raises `IndexError` on an empty list). -/
structure DesempenhoSpec where
  memoria_ram_gb : Option (List String)
  processador : Option String
deriving DecidableEq

/-- Specification block of a phone (`especificacoes`). -/
structure Especificacoes where
  tela : Option TelaSpec
  bateria : Option BateriaSpec
  cameras : Option CamerasSpec
  desempenho : Option DesempenhoSpec
deriving DecidableEq

/-- Commercial block of a phone (`compra`). `faixa_preco_categoria` is read
with a subscript in the price filter, so its absence is a `KeyError`. -/
structure Compra where
  faixa_preco_categoria : Option String
  preco_medio_lancamento_brl : Option String
deriving DecidableEq

/-- A catalog entry (one element of `celulares.json`). The top-level keys
`compra` and `avaliacoes` are read with subscripts in the filter/scorer and
with `.get(…, \x7b\x7d)` in the presenter, so both readings are supported by
`Option` fields. `ativo` is read with `c.get("ativo")` and used as a
truth value. -/
structure Celular where
  ativo : Bool
  identificacao : Option Identificacao
  especificacoes : Option Especificacoes
  compra : Option Compra
  avaliacoes : Option Avaliacoes
deriving DecidableEq

/-- A retailer entry of `lojas.json`; `loja["nome"]` and `loja["url"]` are
the two keys the source reads. -/
structure Loja where
  nome : String
  url : String
deriving DecidableEq

/-- The parsed content of `lojas.json`; the source reads the two keys with
`.get(…, [])`, so the missing-key default is folded into the lists. -/
structure LojasData where
  ancoras : List Loja
  rotativas : List Loja
deriving DecidableEq

/-- The structured intent extracted from the user query.  The source reads
`intencao.get("faixa_preco_categoria")` (absent ⇒ `None`) and
`intencao.get("caracteristicas_foco", [])` (absent ⇒ `[]`). -/
structure Intencao where
  faixa_preco_categoria : Option String
  caracteristicas_foco : List String
deriving DecidableEq

/-- The in-memory state of a `ConsultorInteligente` instance after a
successful `__init__`. -/
structure ConsultorState where
  database_celulares : List Celular
  lojas_ancora : List Loja
  lojas_rotativas : List Loja
deriving DecidableEq

/-- `ConsultorInteligente.__init__`: loads `celulares.json` and
`lojas.json`.  The `Option` arguments model the outcome of opening and
parsing each file (`none` = `FileNotFoundError` or `JSONDecodeError`);
the constructor re-raises, so a `none` input yields a `none` state. -/
def inicializarConsultor (celulares_json : Option (List Celular))
    (lojas_json : Option LojasData) : Option ConsultorState :=
  match celulares_json with
  | none => none
  | some db =>
    match lojas_json with
    | none => none
    | some lojas => some ⟨db, lojas.ancoras, lojas.rotativas⟩

/-- `candidatos = [c for c in self.database_celulares if c.get("ativo")]`. -/
def candidatosAtivos (db : List Celular) : List Celular :=
  db.filter (fun c => c.ativo)

/-- `[c for c in candidatos if c["compra"]["faixa_preco_categoria"] == faixa]`:
the two subscripts raise on a missing key, so the comprehension fails
(`none`) as soon as some candidate lacks them. -/
def filtroPreco (faixa : String) : List Celular → Option (List Celular)
  | [] => some []
  | c :: cs =>
    match c.compra with
    | none => none
    | some compra =>
      match compra.faixa_preco_categoria with
      | none => none
      | some f =>
        (filtroPreco faixa cs).map (fun rest => if f = faixa then c :: rest else rest)

/-- The candidate list after the `ativo` filter and the (conditional) price
filter of `filtrar_celulares_localmente`.  The price filter runs only when
`faixa_preco_desejada` is truthy, i.e. present and not the empty string. -/
def candidatosPreco (db : List Celular) (intencao : Intencao) : Option (List Celular) :=
  let candidatos := candidatosAtivos db
  match intencao.faixa_preco_categoria with
  | none => some candidatos
  | some faixa => if faixa = "" then some candidatos else filtroPreco faixa candidatos

/-- Reads `celular["avaliacoes"]["notas_detalhadas"].get(chave, 0)`: the two
subscripts raise on absence, the leaf defaults to `0`. -/
def notaDetalhada (celular : Celular) (chave : NotasDetalhadas → Option Rat) : Option Rat :=
  match celular.avaliacoes with
  | none => none
  | some av =>
    match av.notas_detalhadas with
    | none => none
    | some nd => some ((chave nd).getD 0)

/-- Reads `celular["avaliacoes"].get("custo_beneficio", 0)`. -/
def notaCustoBeneficio (celular : Celular) : Option Rat :=
  match celular.avaliacoes with
  | none => none
  | some av => some (av.custo_beneficio.getD 0)

/-- The loop body of `calcular_pontuacao`, folding the focus tags over the
accumulator `pontuacao`.  A tag that matches none of the six branches
leaves the accumulator untouched. -/
def pontuacaoAux (celular : Celular) : List String → Rat → Option Rat
  | [], pontuacao => some pontuacao
  | foco :: resto, pontuacao =>
    if foco = "câmera" then
      (notaDetalhada celular (fun nd => nd.camera_principal)).bind
        (fun v => pontuacaoAux celular resto (pontuacao + v))
    else if foco = "bateria" then
      (notaDetalhada celular (fun nd => nd.bateria)).bind
        (fun v => pontuacaoAux celular resto (pontuacao + v))
    else if foco = "desempenho" then
      (notaDetalhada celular (fun nd => nd.desempenho)).bind
        (fun v => pontuacaoAux celular resto (pontuacao + v))
    else if foco = "custo-benefício" then
      (notaCustoBeneficio celular).bind
        (fun v => pontuacaoAux celular resto (pontuacao + v))
    else if foco = "tela" then
      (notaDetalhada celular (fun nd => nd.tela)).bind
        (fun v => pontuacaoAux celular resto (pontuacao + v))
    else if foco = "design" then
      (notaDetalhada celular (fun nd => nd.design)).bind
        (fun v => pontuacaoAux celular resto (pontuacao + v))
    else
      pontuacaoAux celular resto pontuacao

/-- `calcular_pontuacao(celular)` for a given focus-tag list; `none` when
a rating lookup raises `KeyError`. -/
def calcular_pontuacao (caracteristicas_foco : List String) (celular : Celular) : Option Rat :=
  pontuacaoAux celular caracteristicas_foco 0

/-- Evaluates the sort key on every candidate, pairing each candidate with
its score; fails as soon as one key evaluation raises. -/
def emparelhar (pont : Celular → Option Rat) : List Celular → Option (List (Celular × Rat))
  | [] => some []
  | c :: cs =>
    match pont c with
    | none => none
    | some s => (emparelhar pont cs).map (fun rest => (c, s) :: rest)

/-- Stable insertion of a scored candidate into a descending-by-score list:
the new element (which originates earlier in the pre-sort order) passes
only strictly greater scores, so ties keep the original order, exactly as
Python's stable `list.sort(key=…, reverse=True)`. -/
def insereDesc (x : Celular × Rat) : List (Celular × Rat) → List (Celular × Rat)
  | [] => [x]
  | y :: ys => if x.2 < y.2 then y :: insereDesc x ys else x :: y :: ys

/-- Stable descending sort by score (`candidatos.sort(key=…, reverse=True)`). -/
def ordenaDesc : List (Celular × Rat) → List (Celular × Rat)
  | [] => []
  | x :: xs => insereDesc x (ordenaDesc xs)

/-- The scored, sorted candidate list the filter builds on its scoring
path: candidates after the `ativo`/price filters, each paired with its
score, in descending score order. -/
def ordenadosDe (pont : List String → Celular → Option Rat)
    (db : List Celular) (intencao : Intencao) : Option (List (Celular × Rat)) :=
  match candidatosPreco db intencao with
  | none => none
  | some candidatos =>
    match emparelhar (pont intencao.caracteristicas_foco) candidatos with
    | none => none
    | some scored => some (ordenaDesc scored)

/-- Body of `filtrar_celulares_localmente`, parameterised by the scoring
function `pont` (instantiated with `calcular_pontuacao` by the method) and
by `sample5`, the outcome of `random.sample(top_candidatos, 5)`. -/
def filtrarCore (pont : List String → Celular → Option Rat)
    (sample5 : List Celular → List Celular)
    (db : List Celular) (intencao : Intencao) : Option (List Celular) :=
  match candidatosPreco db intencao with
  | none => none
  | some candidatos =>
    if intencao.caracteristicas_foco.isEmpty || candidatos.isEmpty then
      some (candidatos.take 10)
    else
      match emparelhar (pont intencao.caracteristicas_foco) candidatos with
      | none => none
      | some scored =>
        let ordenados := ordenaDesc scored
        let top_candidatos := (ordenados.take 7).map Prod.fst
        if 5 < top_candidatos.length then some (sample5 top_candidatos)
        else some top_candidatos

/-- `filtrar_celulares_localmente` as a method: it reads
`self.database_celulares` and writes nothing, so the state is returned
unchanged alongside the result. -/
def filtrar_celulares_localmente (sample5 : List Celular → List Celular)
    (st : ConsultorState) (intencao : Intencao) :
    Option (List Celular) × ConsultorState :=
  (filtrarCore calcular_pontuacao sample5 st.database_celulares intencao, st)

/-- `classificar_e_recomendar`: on an empty shortlist it returns `[]`
immediately; otherwise it issues the remote generative call, whose
behaviour (including the `…or []` parse fallback and a possible transport
exception, `none`) is the parameter `remote`. -/
def classificar_e_recomendar (remote : List Celular → Intencao → Option (List Celular))
    (candidatos : List Celular) (intencao : Intencao) : Option (List Celular) :=
  if candidatos.isEmpty then some [] else remote candidatos intencao

/-- `selecionar_lojas`: one anchor via `random.choice` (only when the
anchor set is non-empty), two rotating retailers via `random.sample` when
at least two exist (otherwise all of them), shuffled, first three kept.
`choice`, `sample2` and `shuffle` are the outcomes of the three random
primitives. -/
def selecionar_lojas (choice : List Loja → Loja)
    (sample2 : List Loja → List Loja) (shuffle : List Loja → List Loja)
    (st : ConsultorState) : List Loja :=
  let comAncora := if st.lojas_ancora.isEmpty then [] else [choice st.lojas_ancora]
  let comRotativas :=
    if 2 ≤ st.lojas_rotativas.length then comAncora ++ sample2 st.lojas_rotativas
    else comAncora ++ st.lojas_rotativas
  (shuffle comRotativas).take 3

/-- Result of an HTTP endpoint: a 200 body, or an `HTTPException` with a
status code and detail string. -/
inductive ApiResult where
  | ok (body : String)
  | erro (status : Nat) (detail : String)
deriving DecidableEq

/-- `GET /logs/consultas`: `env_token` is `os.environ.get("LOG_ACCESS_TOKEN")`,
`logfile` the content of `consultas_usuarios.log` when the file exists. -/
def get_consultas_log (env_token : Option String) (logfile : Option String)
    (token : String) : ApiResult :=
  match env_token with
  | none => .erro 403 "Acesso negado: Token inválido."
  | some correct_token =>
    if correct_token = "" ∨ token ≠ correct_token then
      .erro 403 "Acesso negado: Token inválido."
    else
      match logfile with
      | some conteudo => .ok conteudo
      | none => .ok "Arquivo de log ainda não foi criado."

/-- The default image reference of `_gerar_html_card`. -/
def placeholderImagem : String :=
  "[https://via.placeholder.com/150](https://via.placeholder.com/150)"

/-- `_gerar_selo_destaque`: picks the feature with the highest rating among
the four badge candidates (Python's `max` keeps the first maximum in the
dict's insertion order) and renders a badge when it exceeds 8.8. -/
def gerarSeloDestaque (p : Celular) : String :=
  let notas := p.avaliacoes.bind (fun av => av.notas_detalhadas)
  let custo_beneficio := (p.avaliacoes.bind (fun av => av.custo_beneficio)).getD 0
  let mapeamento_selos : List (String × Rat) :=
    [("🚀 Super Desempenho", (notas.bind (fun nd => nd.desempenho)).getD 0),
     ("📸 Câmera Pro", (notas.bind (fun nd => nd.camera_principal)).getD 0),
     ("🔋 Bateria Monstra", (notas.bind (fun nd => nd.bateria)).getD 0),
     ("👑 Rei do Custo-Benefício", custo_beneficio)]
  let melhor := mapeamento_selos.foldl
    (fun best par => if best.2 < par.2 then par else best)
    ("🚀 Super Desempenho", (notas.bind (fun nd => nd.desempenho)).getD 0)
  if (8.8 : Rat) < melhor.2 then
    "<div class=\x27absolute top-2 right-2 bg-blue-500 text-white text-xs font-bold px-2 py-1 rounded-full shadow-lg\x27>" ++
      melhor.1 ++ "</div>"
  else ""

/-- `_gerar_html_card`: one carousel card.  `none` models the `IndexError`
of `…get(\x27memoria_ram_gb\x27, [\x27?\x27])[0]` on a present-but-empty RAM list.
`fstr` renders a number the way the host language's `str` does. -/
def gerarHtmlCard (fstr : Rat → String) (p : Celular) : Option String :=
  let selo_html := gerarSeloDestaque p
  let imagem_url := (p.identificacao.bind (fun idn => idn.imagem_url)).getD placeholderImagem
  let avaliacao := p.avaliacoes.bind (fun av => av.avaliacao_geral)
  let ramLista := ((p.especificacoes.bind (fun e => e.desempenho)).bind
    (fun d => d.memoria_ram_gb)).getD ["?"]
  match ramLista.head? with
  | none => none
  | some ram =>
    let specs_html :=
      "\n            <div class=\x27grid grid-cols-2 gap-2 text-xs text-gray-300 my-3\x27>\n                <span class=\x27flex items-center gap-1\x27>📱 " ++
      (((p.especificacoes.bind (fun e => e.tela)).bind
        (fun t => t.tamanho_polegadas)).getD "?" ++
      ("”</span>\n                <span class=\x27flex items-center gap-1\x27>🔋 " ++
      (((p.especificacoes.bind (fun e => e.bateria)).bind
        (fun b => b.capacidade_mah)).getD "?" ++
      (" mAh</span>\n                <span class=\x27flex items-center gap-1\x27>📷 " ++
      ((((p.especificacoes.bind (fun e => e.cameras)).bind
        (fun cs => cs.principal)).bind (fun cp => cp.megapixels)).getD "?" ++
      (" MP</span>\n                <span class=\x27flex items-center gap-1\x27>⚙️ " ++
      (ram ++ " GB RAM</span>\n            </div>\n            ")))))))
    let positivos := (p.avaliacoes.bind (fun av => av.positivos_percebidos)).getD []
    let positivos_html := String.join ((positivos.take 2).map (fun b =>
      "<li class=\x27flex items-start gap-2 text-xs\x27><span class=\x27text-green-400\x27>✅</span><span>" ++
        b ++ "</span></li>"))
    let nota_html :=
      match avaliacao with
      | some v =>
        if v = 0 then ""
        else "<span class=\"text-amber-400 font-bold\">⭐ " ++ (fstr v ++ "/10</span>")
      | none => ""
    some
      ("\n            <div class=\"relative flex-shrink-0 w-11/12 snap-center bg-[#2a2a46] text-white p-4 rounded-xl shadow-md border border-gray-700/50\">\n                " ++
       (selo_html ++
       ("\n                <div class=\x27flex gap-4\x27>\n                    <img src=\x27" ++
       (imagem_url ++
       ("\x27 alt=\x27" ++
       ((p.identificacao.bind (fun idn => idn.nome_completo)).getD "" ++
       ("\x27 class=\x27w-24 h-24 object-contain rounded-lg\x27/>\n                    <div>\n                        <h3 class=\"text-lg font-bold text-blue-400\">" ++
       ((p.identificacao.bind (fun idn => idn.nome_completo)).getD "Modelo desconhecido" ++
       ("</h3>\n                        <p class=\x27text-xs text-gray-400 mb-2 italic\x27>👤 " ++
       ((p.avaliacoes.bind (fun av => av.perfil_ideal)).getD "" ++
       ("</p>\n                        " ++
       (nota_html ++
       ("\n                    </div>\n                </div>\n                " ++
       (specs_html ++
       ("\n                <h4 class=\x27font-semibold text-xs mb-1\x27>Destaques:</h4>\n                <ul class=\x27space-y-1\x27>" ++
       (positivos_html ++ "</ul>\n            </div>\n            "))))))))))))))))

/-- A table cell produced by `get_row` when the walked value is a string
leaf: a missing key along the path renders the empty-dict default. -/
def celulaTexto (v : Option String) : String :=
  v.getD "\x7b\x7d"

/-- A table cell produced by `get_row` when the walked value is a numeric
leaf. -/
def celulaNumero (fstr : Rat → String) (v : Option Rat) : String :=
  match v with
  | some q => fstr q
  | none => "\x7b\x7d"

/-- `get_row`: a label cell followed by one centred cell per product. -/
def linhaTabela (label : String) (celulas : List String) : String :=
  "<tr><td class=\x27p-2 font-semibold text-left\x27>" ++
    (label ++
    ("</td>" ++
    (String.join (celulas.map (fun value =>
      "<td class=\x27p-2 text-center\x27>" ++ (value ++ "</td>"))) ++ "</tr>")))

/-- `_gerar_html_tabela_comparativa`. -/
def gerarHtmlTabelaComparativa (fstr : Rat → String) (produtos : List Celular) : String :=
  let headers_html := String.join (produtos.map (fun p =>
    "<th class=\x27p-2 text-sm font-semibold text-blue-400\x27>" ++
      ((p.identificacao.bind (fun idn => idn.modelo)).getD "?" ++ "</th>")))
  "\n            <div class=\x27bg-[#2a2a46] text-white p-4 rounded-xl shadow-md border border-gray-700/50 overflow-x-auto\x27>\n                <table class=\x27w-full text-xs text-left\x27>\n                    <thead><tr class=\x27border-b border-gray-700\x27><th>Característica</th>" ++
  (headers_html ++
  ("</tr></thead>\n                    <tbody class=\x27divide-y divide-gray-700\x27>\n                        " ++
  (linhaTabela "⭐ Avaliação Geral" (produtos.map (fun p =>
    celulaNumero fstr (p.avaliacoes.bind (fun av => av.avaliacao_geral)))) ++
  ("\n                        " ++
  (linhaTabela "💰 Custo-Benefício" (produtos.map (fun p =>
    celulaNumero fstr (p.avaliacoes.bind (fun av => av.custo_beneficio)))) ++
  ("\n                        " ++
  (linhaTabela "📱 Tela (pol)" (produtos.map (fun p =>
    celulaTexto ((p.especificacoes.bind (fun e => e.tela)).bind
      (fun t => t.tamanho_polegadas)))) ++
  ("\n                        " ++
  (linhaTabela "📷 Câmera (MP)" (produtos.map (fun p =>
    celulaTexto (((p.especificacoes.bind (fun e => e.cameras)).bind
      (fun cs => cs.principal)).bind (fun cp => cp.megapixels)))) ++
  ("\n                        " ++
  (linhaTabela "🔋 Bateria (mAh)" (produtos.map (fun p =>
    celulaTexto ((p.especificacoes.bind (fun e => e.bateria)).bind
      (fun b => b.capacidade_mah)))) ++
  ("\n                        " ++
  (linhaTabela "⚙️ Processador" (produtos.map (fun p =>
    celulaTexto ((p.especificacoes.bind (fun e => e.desempenho)).bind
      (fun d => d.processador)))) ++
  ("\n                        " ++
  (linhaTabela "📈 Preço (R$)" (produtos.map (fun p =>
    celulaTexto (p.compra.bind (fun k => k.preco_medio_lancamento_brl)))) ++
  "\n                    </tbody>\n                </table>\n            </div>\n            ")))))))))))))))

/-- The card loop of the carousel/accordion views: builds every card,
failing as soon as one card raises. -/
def construirCards (fstr : Rat → String) : List Celular → Option (List String)
  | [] => some []
  | p :: ps =>
    match gerarHtmlCard fstr p with
    | none => none
    | some card => (construirCards fstr ps).map (fun rest => card :: rest)

/-- The user-facing message of `apresentar_resultados` when fewer than 3
products are available. -/
def msgInsuficiente : String := "Não encontrei recomendações suficientes."

/-- The fixed opening of every fully rendered recommendation document. -/
def sucessoInicio : String := "<div class=\"interactive-results\">"

/-- The fixed view-toggle block of `apresentar_resultados`. -/
def botoesAlternancia : String :=
  "\n        <div class=\"flex items-center justify-center gap-2 mb-3\">\n            <button data-view=\"carousel\" class=\"view-toggle-button active-view-button text-xs px-3 py-1 rounded-full\">Resumo</button>\n            <button data-view=\"accordion\" class=\"view-toggle-button inactive-view-button text-xs px-3 py-1 rounded-full\">Detalhes</button>\n            <button data-view=\"table\" class=\"view-toggle-button inactive-view-button text-xs px-3 py-1 rounded-full\">Comparar</button>\n        </div>\n        "

/-- `apresentar_resultados`: the early apology on fewer than three
products, otherwise the full interactive document (carousel + accordion +
comparison table + retailer block).  `choice`, `sample2` and `shuffle` are
forwarded to `selecionar_lojas`; `none` models an exception while building
a card. -/
def apresentar_resultados (fstr : Rat → String) (choice : List Loja → Loja)
    (sample2 : List Loja → List Loja) (shuffle : List Loja → List Loja)
    (st : ConsultorState) (produtos : List Celular) : Option String :=
  if produtos.isEmpty || produtos.length < 3 then some msgInsuficiente
  else
    (construirCards fstr produtos).map fun cards =>
      let carousel_html :=
        "<div id=\x27view-carousel\x27 class=\x27card-carousel flex overflow-x-auto snap-x snap-mandatory space-x-4 py-2\x27>" ++
          (String.join cards ++
           "</div><p class=\x27text-xs text-gray-400 mt-1 text-center md:hidden\x27> arraste para o lado para ver mais opções.</p>")
      let accordion_html :=
        "<div id=\x27view-accordion\x27 class=\x27hidden space-y-2\x27>" ++
          (String.join cards ++ "</div>")
      let table_html :=
        "<div id=\x27view-table\x27 class=\x27hidden\x27>" ++
          (gerarHtmlTabelaComparativa fstr produtos ++ "</div>")
      let lojas_selecionadas := selecionar_lojas choice sample2 shuffle st
      let lojas_html :=
        "<div class=\x27mt-6 text-center\x27><h4 class=\x27text-sm font-semibold text-white mb-2\x27>Confira os preços e promoções nas lojas a seguir:</h4><div class=\x27flex flex-wrap justify-center gap-2\x27>" ++
          (String.join (lojas_selecionadas.map (fun loja =>
            "<a href=\"" ++
              (loja.url ++
              ("\" target=\"_blank\" class=\"block bg-gray-700 hover:bg-gray-600 rounded-lg px-4 py-2 transition text-sm text-white font-semibold\">🛒 " ++
              (loja.nome ++ "</a>"))))) ++
           "</div></div>")
      sucessoInicio ++
        (botoesAlternancia ++
        (carousel_html ++ (accordion_html ++ (table_html ++ (lojas_html ++ "</div>")))))

/-- Apology returned by `gerar_recomendacao_completa` when the extracted
intent is empty. -/
def msgNaoEntendi : String := "Desculpe, não consegui entender o que você precisa."

/-- Apology returned by `gerar_recomendacao_completa` when synthesis
produced no products. -/
def msgSemCombinacao : String := "Puxa, não encontrei uma combinação ideal para o seu pedido."

/-- `gerar_recomendacao_completa`: the request pipeline.  `captar` is the
outcome of `captar_intencao` (`none` = the remote call raised; `some none`
= the parsed intent dict is empty/falsy; `some (some i)` = a non-empty
intent); `remote` is the synthesis call of `classificar_e_recomendar`;
the remaining function parameters are the random primitives and the
number renderer used downstream. -/
def gerar_recomendacao_completa (captar : String → Option (Option Intencao))
    (remote : List Celular → Intencao → Option (List Celular))
    (sample5 : List Celular → List Celular) (fstr : Rat → String)
    (choice : List Loja → Loja) (sample2 : List Loja → List Loja)
    (shuffle : List Loja → List Loja)
    (st : ConsultorState) (query_usuario : String) : Option String :=
  match captar query_usuario with
  | none => none
  | some none => some msgNaoEntendi
  | some (some intencao) =>
    match (filtrar_celulares_localmente sample5 st intencao).1 with
    | none => none
    | some candidatos =>
      match classificar_e_recomendar remote candidatos intencao with
      | none => none
      | some produtos_recomendados =>
        if produtos_recomendados.isEmpty then some msgSemCombinacao
        else apresentar_resultados fstr choice sample2 shuffle st produtos_recomendados

/-- Detail of the 503 raised by `POST /consultar` when initialization
failed. -/
def msgIndisponivel : String := "Serviço indisponível: Modelo de IA não inicializado."

/-- Detail of the 500 raised by `POST /consultar` on an unexpected
exception. -/
def msgErroInterno : String := "Ocorreu um erro interno no servidor."

/-- The liveness body of `GET /`. -/
def msgRaiz : String := "API do Consultor Inteligente v2.1 está no ar!"

/-- `GET /`. -/
def read_root : ApiResult := .ok msgRaiz

/-- `POST /consultar`: 503 when the module-level `consultor` is `None`
(initialization failed and was caught), 500 when the pipeline raised,
otherwise the pipeline's string.  The request-log write (lines 59–64 of
`api.py`) is wrapped in its own try/except and never affects the
response, so it does not appear here. -/
def consultar_celular (consultor : Option ConsultorState)
    (captar : String → Option (Option Intencao))
    (remote : List Celular → Intencao → Option (List Celular))
    (sample5 : List Celular → List Celular) (fstr : Rat → String)
    (choice : List Loja → Loja) (sample2 : List Loja → List Loja)
    (shuffle : List Loja → List Loja) (query : String) : ApiResult :=
  match consultor with
  | none => .erro 503 msgIndisponivel
  | some st =>
    match gerar_recomendacao_completa captar remote sample5 fstr choice sample2 shuffle st query with
    | some recomendacao => .ok recomendacao
    | none => .erro 500 msgErroInterno

/-- Modelled from the spec (§7): the claimed taxonomy of user-visible
outcomes of the recommendation endpoint — success document, the
could-not-understand apology, the no-match apology, service-unavailable,
or the generic internal error; a success document is a fully rendered
recommendation, which always opens with the `interactive-results`
wrapper. -/
def CincoResultados (r : ApiResult) : Prop :=
  r = .erro 503 msgIndisponivel ∨
  r = .erro 500 msgErroInterno ∨
  r = .ok msgNaoEntendi ∨
  r = .ok msgSemCombinacao ∨
  ∃ t, r = .ok (sucessoInicio ++ t)

/-- The outcome taxonomy the code actually realizes: the five outcomes
above plus the insufficient-recommendations apology of
`apresentar_resultados`. -/
def SeisResultados (r : ApiResult) : Prop :=
  r = .erro 503 msgIndisponivel ∨
  r = .erro 500 msgErroInterno ∨
  r = .ok msgNaoEntendi ∨
  r = .ok msgSemCombinacao ∨
  r = .ok msgInsuficiente ∨
  ∃ t, r = .ok (sucessoInicio ++ t)

/-! Concrete catalog and collaborator instances used to evaluate the
definitions on explicit inputs. -/

/-- A detailed-ratings block whose only rating is the battery one. -/
def ndTeste (bat : Rat) : NotasDetalhadas :=
  ⟨none, some bat, none, none, none⟩

/-- An evaluation block carrying only the battery rating. -/
def avTeste (bat : Rat) : Avaliacoes :=
  ⟨some (ndTeste bat), none, none, none, none⟩

/-- An active entry-tier phone whose battery rating is `bat`. -/
def celularTeste (nome : String) (bat : Rat) : Celular :=
  ⟨true, some ⟨some nome, some nome, none⟩, none,
   some ⟨some "Entrada", none⟩, some (avTeste bat)⟩

def cel1 : Celular := celularTeste "Fone 1" 7
def cel2 : Celular := celularTeste "Fone 2" 6
def cel3 : Celular := celularTeste "Fone 3" 5
def cel4 : Celular := celularTeste "Fone 4" 4
def cel5 : Celular := celularTeste "Fone 5" 3
def cel6 : Celular := celularTeste "Fone 6" 2
def cel7 : Celular := celularTeste "Fone 7" 1

/-- A seven-entry catalog, already in descending battery-rating order. -/
def dbSete : List Celular := [cel1, cel2, cel3, cel4, cel5, cel6, cel7]

def stSete : ConsultorState := ⟨dbSete, [], []⟩

/-- Intent focused on battery with no price constraint. -/
def intencaoBateria : Intencao := ⟨none, ["bateria"]⟩

/-- Entry-tier intent with no feature focus. -/
def intencaoEntradaVazia : Intencao := ⟨some "Entrada", []⟩

/-- Entry-tier intent focused on battery. -/
def intencaoEntradaBateria : Intencao := ⟨some "Entrada", ["bateria"]⟩

/-- The scored, sorted candidate list the filter builds over `dbSete` for
`intencaoBateria`. -/
def ordSete : List (Celular × Rat) :=
  [(cel1, 7), (cel2, 6), (cel3, 5), (cel4, 4), (cel5, 3), (cel6, 2), (cel7, 1)]

def lojaA : Loja := ⟨"Loja Âncora", "https://ancora.example"⟩
def lojaB : Loja := ⟨"Loja B", "https://b.example"⟩
def lojaC : Loja := ⟨"Loja C", "https://c.example"⟩

/-- A retailer configuration with one anchor and two rotating stores. -/
def stLojas : ConsultorState := ⟨[], [lojaA], [lojaB, lojaC]⟩

/-- A catalog with a single active phone. -/
def stUm : ConsultorState := ⟨[celularTeste "Fone Único" 5], [], []⟩

/-- An intent extractor whose parsed intent has no price tier and no focus
tags (a non-empty dict with empty fields). -/
def captarVazio : String → Option (Option Intencao) :=
  fun _ => some (some ⟨none, []⟩)

/-- A synthesis call that returns a single product, i.e. fewer than the
three the presenter requires. -/
def remoteUm : List Celular → Intencao → Option (List Celular) :=
  fun _ _ => some [celularTeste "Fone Único" 5]

/-- A phone with no `avaliacoes` key at all. -/
def celSemAvaliacoes : Celular := ⟨true, none, none, none, none⟩

/-- Descending-score order on scored candidates: the relation the sorted
list of the filter is pairwise-ordered by. -/
def DescPar (a b : Celular × Rat) : Prop := b.2 ≤ a.2

/-- The recognized price-tier categories of the intent-extraction prompt. -/
def faixasReconhecidas : List String :=
  ["Entrada", "Intermediário", "Intermediário Premium", "Premium", "Super Premium"]

/-- The six recognized focus tags of `calcular_pontuacao`. -/
def tagsReconhecidas : List String :=
  ["câmera", "bateria", "desempenho", "custo-benefício", "tela", "design"]

/-! Helper lemmas about the sorting and filtering stages. -/

/-- Inserting into the sorted list permutes consing. -/
theorem insereDesc_perm (x : Celular × Rat) (l : List (Celular × Rat)) :
    List.Perm (insereDesc x l) (x :: l) := by
  induction l with
  | nil => simp [insereDesc]
  | cons y ys ih =>
    by_cases h : x.2 < y.2
    · simp only [insereDesc, if_pos h]
      exact (ih.cons y).trans (List.Perm.swap x y ys)
    · simp only [insereDesc, if_neg h]
      exact List.Perm.refl _

/-- The stable sort permutes its input. -/
theorem ordenaDesc_perm (l : List (Celular × Rat)) :
    List.Perm (ordenaDesc l) l := by
  induction l with
  | nil => simp [ordenaDesc]
  | cons x xs ih =>
    exact (insereDesc_perm x (ordenaDesc xs)).trans (ih.cons x)

/-- Insertion preserves the descending pairwise order. -/
theorem insereDesc_pairwise {l : List (Celular × Rat)} (x : Celular × Rat)
    (h : l.Pairwise DescPar) : (insereDesc x l).Pairwise DescPar := by
  induction l with
  | nil => simp [insereDesc, List.pairwise_cons]
  | cons y ys ih =>
    rcases List.pairwise_cons.mp h with ⟨hy, hys⟩
    by_cases hxy : x.2 < y.2
    · simp only [insereDesc, if_pos hxy]
      refine List.pairwise_cons.mpr ⟨?_, ih hys⟩
      intro z hz
      rcases List.mem_cons.mp ((insereDesc_perm x ys).mem_iff.mp hz) with rfl | hmem
      · exact le_of_lt hxy
      · exact hy z hmem
    · simp only [insereDesc, if_neg hxy]
      have hxy' : y.2 ≤ x.2 := le_of_not_lt hxy
      refine List.pairwise_cons.mpr ⟨?_, h⟩
      intro z hz
      rcases List.mem_cons.mp hz with rfl | hmem
      · exact hxy'
      · exact le_trans (hy z hmem) hxy'

/-- The sorted list is descending by score. -/
theorem ordenaDesc_pairwise (l : List (Celular × Rat)) :
    (ordenaDesc l).Pairwise DescPar := by
  induction l with
  | nil => simp [ordenaDesc]
  | cons x xs ih => exact insereDesc_pairwise x ih

/-- In a descending list, every dropped element scores at most every kept
element. -/
theorem pairwise_take_drop {l : List (Celular × Rat)} (h : l.Pairwise DescPar)
    (n : Nat) : ∀ a ∈ l.take n, ∀ b ∈ l.drop n, b.2 ≤ a.2 := by
  rw [← List.take_append_drop n l] at h
  exact fun a ha b hb => (List.pairwise_append.mp h).2.2 a ha b hb

/-- The scored pairs project back onto the candidate list. -/
theorem emparelhar_map_fst {pont : Celular → Option Rat} :
    ∀ {cs : List Celular} {l : List (Celular × Rat)},
      emparelhar pont cs = some l → l.map Prod.fst = cs := by
  intro cs
  induction cs with
  | nil => intro l h; cases h; rfl
  | cons c cs ih =>
    intro l h
    unfold emparelhar at h
    cases hp : pont c with
    | none => rw [hp] at h; cases h
    | some s =>
      rw [hp] at h
      rcases Option.map_eq_some'.mp h with ⟨rest, hrest, rfl⟩
      simp [ih hrest]

/-- Every scored pair records the score of its candidate. -/
theorem emparelhar_pont {pont : Celular → Option Rat} :
    ∀ {cs : List Celular} {l : List (Celular × Rat)},
      emparelhar pont cs = some l → ∀ p ∈ l, pont p.1 = some p.2 := by
  intro cs
  induction cs with
  | nil => intro l h; cases h; intro p hp; cases hp
  | cons c cs ih =>
    intro l h
    unfold emparelhar at h
    cases hp : pont c with
    | none => rw [hp] at h; cases h
    | some s =>
      rw [hp] at h
      rcases Option.map_eq_some'.mp h with ⟨rest, hrest, rfl⟩
      intro p hp'
      rcases List.mem_cons.mp hp' with rfl | hmem
      · exact hp
      · exact ih hrest p hmem

/-- Every survivor of the price filter comes from the input and matches the
requested tier. -/
theorem mem_filtroPreco {faixa : String} :
    ∀ {l r : List Celular}, filtroPreco faixa l = some r → ∀ c ∈ r,
      c ∈ l ∧ ∃ k, c.compra = some k ∧ k.faixa_preco_categoria = some faixa := by
  intro l
  induction l with
  | nil => intro r h c hc; cases h; cases hc
  | cons d ds ih =>
    intro r h c hc
    cases hcompra : d.compra with
    | none =>
      simp only [filtroPreco, hcompra] at h
      exact Option.noConfusion h
    | some k =>
      cases hf : k.faixa_preco_categoria with
      | none =>
        simp only [filtroPreco, hcompra, hf] at h
        exact Option.noConfusion h
      | some f =>
        simp only [filtroPreco, hcompra, hf] at h
        rcases Option.map_eq_some'.mp h with ⟨rest, hrest, rfl⟩
        by_cases hfx : f = faixa
        · rw [if_pos hfx] at hc
          rcases List.mem_cons.mp hc with rfl | hmem
          · exact ⟨List.mem_cons_self c ds, k, hcompra, hfx ▸ hf⟩
          · rcases ih hrest c hmem with ⟨hin, hk⟩
            exact ⟨List.mem_cons_of_mem d hin, hk⟩
        · rw [if_neg hfx] at hc
          rcases ih hrest c hc with ⟨hin, hk⟩
          exact ⟨List.mem_cons_of_mem d hin, hk⟩

/-- Every candidate surviving the `ativo`/price stage is an active entry of
the catalog. -/
theorem mem_candidatosPreco {db : List Celular} {i : Intencao} {cands : List Celular}
    (h : candidatosPreco db i = some cands) :
    ∀ c ∈ cands, c.ativo = true ∧ c ∈ db := by
  intro c hc
  have hativos : c ∈ candidatosAtivos db := by
    cases hf : i.faixa_preco_categoria with
    | none =>
      simp only [candidatosPreco, hf] at h
      cases h; exact hc
    | some faixa =>
      simp only [candidatosPreco, hf] at h
      by_cases hfx : faixa = ""
      · rw [if_pos hfx] at h; cases h; exact hc
      · rw [if_neg hfx] at h
        exact (mem_filtroPreco h c hc).1
  have := List.mem_filter.mp hativos
  exact ⟨by simpa using this.2, this.1⟩

/-- When the requested tier is a non-empty string, the candidate stage is
exactly the price filter over the active entries. -/
theorem candidatosPreco_faixa {db : List Celular} {i : Intencao} {faixa : String}
    (hf : i.faixa_preco_categoria = some faixa) (hne : faixa ≠ "") :
    candidatosPreco db i = filtroPreco faixa (candidatosAtivos db) := by
  simp only [candidatosPreco, hf, if_neg hne]

/-- Every element of a successful filter output comes from the
`ativo`/price candidate stage (the random sample only ever picks from the
population it is given). -/
theorem filtrarCore_mem {pont : List String → Celular → Option Rat}
    {sample5 : List Celular → List Celular} {db : List Celular} {i : Intencao}
    {out : List Celular}
    (Hsub : ∀ l, ∀ x ∈ sample5 l, x ∈ l)
    (h : filtrarCore pont sample5 db i = some out) :
    ∀ c ∈ out, ∃ cands, candidatosPreco db i = some cands ∧ c ∈ cands := by
  intro c hc
  cases hcp : candidatosPreco db i with
  | none =>
    simp only [filtrarCore, hcp] at h
    exact Option.noConfusion h
  | some cands =>
    refine ⟨cands, rfl, ?_⟩
    simp only [filtrarCore, hcp] at h
    split at h
    · cases h
      exact List.mem_of_mem_take hc
    · cases he : emparelhar (pont i.caracteristicas_foco) cands with
      | none =>
        simp only [he] at h
        exact Option.noConfusion h
      | some scored =>
        simp only [he] at h
        have hctop : c ∈ ((ordenaDesc scored).take 7).map Prod.fst := by
          split at h
          · cases h; exact Hsub _ c hc
          · cases h; exact hc
        rcases List.mem_map.mp hctop with ⟨p, hp, rfl⟩
        have hp1 : p ∈ ordenaDesc scored := List.mem_of_mem_take hp
        have hp2 : p ∈ scored := (ordenaDesc_perm scored).mem_iff.mp hp1
        rw [← emparelhar_map_fst he]
        exact List.mem_map_of_mem Prod.fst hp2

/-- With the evaluation containers present, the score fold never raises. -/
theorem pontuacaoAux_isSome {c : Celular} {av : Avaliacoes} {nd : NotasDetalhadas}
    (hav : c.avaliacoes = some av) (hnd : av.notas_detalhadas = some nd) :
    ∀ (foco : List String) (acc : Rat), (pontuacaoAux c foco acc).isSome = true := by
  intro foco
  induction foco with
  | nil => intro acc; rfl
  | cons f fs ih =>
    intro acc
    simp only [pontuacaoAux, notaDetalhada, notaCustoBeneficio, hav, hnd]
    split_ifs <;> simp only [Option.some_bind, Option.getD_some, ih]

/-- A tag outside the six recognized ones leaves the accumulator (and the
evaluation containers) untouched. -/
theorem pontuacaoAux_tag_desconhecida {t : String}
    (h1 : t ≠ "câmera") (h2 : t ≠ "bateria") (h3 : t ≠ "desempenho")
    (h4 : t ≠ "custo-benefício") (h5 : t ≠ "tela") (h6 : t ≠ "design")
    (c : Celular) (resto : List String) (acc : Rat) :
    pontuacaoAux c (t :: resto) acc = pontuacaoAux c resto acc := by
  simp only [pontuacaoAux, if_neg h1, if_neg h2, if_neg h3, if_neg h4, if_neg h5, if_neg h6]

/-- A successful run of the presenter yields either the
insufficient-recommendations apology or a document opening with the
`interactive-results` wrapper. -/
theorem apresentar_resultados_casos (fstr : Rat → String) (choice : List Loja → Loja)
    (sample2 shuffle : List Loja → List Loja) (st : ConsultorState)
    (produtos : List Celular) (saida : String)
    (h : apresentar_resultados fstr choice sample2 shuffle st produtos = some saida) :
    saida = msgInsuficiente ∨ ∃ t, saida = sucessoInicio ++ t := by
  unfold apresentar_resultados at h
  split at h
  · exact Or.inl (Option.some.inj h).symm
  · rcases Option.map_eq_some'.mp h with ⟨cards, _, hsaida⟩
    exact Or.inr ⟨_, hsaida.symm⟩

/-- A successful run of the pipeline yields one of the two apologies, the
insufficient-recommendations message, or a rendered document. -/
theorem gerar_casos (captar : String → Option (Option Intencao))
    (remote : List Celular → Intencao → Option (List Celular))
    (sample5 : List Celular → List Celular) (fstr : Rat → String)
    (choice : List Loja → Loja) (sample2 shuffle : List Loja → List Loja)
    (st : ConsultorState) (query : String) (saida : String)
    (h : gerar_recomendacao_completa captar remote sample5 fstr choice sample2 shuffle st query = some saida) :
    saida = msgNaoEntendi ∨ saida = msgSemCombinacao ∨ saida = msgInsuficiente ∨
    ∃ t, saida = sucessoInicio ++ t := by
  unfold gerar_recomendacao_completa at h
  cases hcap : captar query with
  | none =>
    simp only [hcap] at h
    exact Option.noConfusion h
  | some io =>
    cases io with
    | none =>
      simp only [hcap] at h
      exact Or.inl (Option.some.inj h).symm
    | some intencao =>
      simp only [hcap] at h
      cases hfil : (filtrar_celulares_localmente sample5 st intencao).1 with
      | none =>
        simp only [hfil] at h
        exact Option.noConfusion h
      | some candidatos =>
        simp only [hfil] at h
        cases hcl : classificar_e_recomendar remote candidatos intencao with
        | none =>
          simp only [hcl] at h
          exact Option.noConfusion h
        | some produtos =>
          simp only [hcl] at h
          split at h
          · exact Or.inr (Or.inl (Option.some.inj h).symm)
          · rcases apresentar_resultados_casos fstr choice sample2 shuffle st produtos saida h with
              hins | hsuc
            · exact Or.inr (Or.inr (Or.inl hins))
            · exact Or.inr (Or.inr (Or.inr hsuc))

/-- The insufficient-recommendations apology never opens with the success
wrapper. -/
theorem msgInsuficiente_ne_sucesso (t : String) :
    msgInsuficiente ≠ sucessoInicio ++ t := by
  intro h
  have hd := congrArg (fun s => s.data.head?) h
  have h1 : msgInsuficiente.data.head? = some 'N' := by decide
  have h2 : ((sucessoInicio ++ t).data).head? = some '<' := by
    have hcons : (sucessoInicio ++ t).data =
        '<' :: ("div class=\"interactive-results\">".data ++ t.data) := rfl
    rw [hcons]; rfl
  simp only [h1, h2] at hd
  exact absurd hd (by decide)

/-! Claim theorems. -/

/-- Claim C3, counterexample: with the catalog file missing at startup
(`celulares_json = none`), initialization yields `None`, yet the process
serves traffic — the recommendation endpoint answers this request with the
503 service-unavailable response, so it is false that no endpoint
responds. -/
theorem c3_contraexemplo :
    inicializarConsultor none (some ⟨[], []⟩) = none ∧
    consultar_celular (inicializarConsultor none (some ⟨[], []⟩)) captarVazio remoteUm
      (fun l => l) (fun _ => "") (fun l => l.headD lojaA) (fun l => l.take 2) (fun l => l)
      "quero um celular" = .erro 503 msgIndisponivel ∧
    ¬ (∀ r : ApiResult,
        consultar_celular (inicializarConsultor none (some ⟨[], []⟩)) captarVazio remoteUm
          (fun l => l) (fun _ => "") (fun l => l.headD lojaA) (fun l => l.take 2) (fun l => l)
          "quero um celular" ≠ r) :=
  ⟨rfl, rfl, fun hall => hall _ rfl⟩

/-- Claim C3, amended: if the catalog file or the retailers file fails to
load, the `ConsultorInteligente` constructor raises, `api.py` catches the
exception and leaves `consultor = None`; the API still starts — the
liveness endpoint answers normally and every request to the recommendation
endpoint receives the 503 service-unavailable response (not silence, and
not a crash of the process). -/
theorem c3_emendado (celulares_json : Option (List Celular)) (lojas_json : Option LojasData)
    (h : celulares_json = none ∨ lojas_json = none)
    (captar : String → Option (Option Intencao))
    (remote : List Celular → Intencao → Option (List Celular))
    (sample5 : List Celular → List Celular) (fstr : Rat → String)
    (choice : List Loja → Loja) (sample2 shuffle : List Loja → List Loja)
    (query : String) :
    inicializarConsultor celulares_json lojas_json = none ∧
    consultar_celular (inicializarConsultor celulares_json lojas_json) captar remote
      sample5 fstr choice sample2 shuffle query = .erro 503 msgIndisponivel ∧
    read_root = .ok msgRaiz := by
  have hinit : inicializarConsultor celulares_json lojas_json = none := by
    rcases h with rfl | rfl
    · rfl
    · cases celulares_json <;> rfl
  exact ⟨hinit, by rw [hinit]; rfl, rfl⟩

/-- Claim C3, witness for the amended theorem at a concrete failed load. -/
theorem c3_testemunha :
    ((none : Option (List Celular)) = none ∨ (some (⟨[], []⟩ : LojasData)) = none) ∧
    (inicializarConsultor none (some ⟨[], []⟩) = none ∧
     consultar_celular (inicializarConsultor none (some ⟨[], []⟩)) captarVazio remoteUm
       (fun l => l.take 5) (fun _ => "") (fun l => l.headD lojaA) (fun l => l.take 2)
       (fun l => l) "qual o melhor celular" = .erro 503 msgIndisponivel ∧
     read_root = .ok msgRaiz) :=
  ⟨Or.inl rfl,
   c3_emendado none (some ⟨[], []⟩) (Or.inl rfl) captarVazio remoteUm
     (fun l => l.take 5) (fun _ => "") (fun l => l.headD lojaA) (fun l => l.take 2)
     (fun l => l) "qual o melhor celular"⟩

/-- Claim C5: with an empty `featureFocus` — or when price filtering
leaves no candidates — the filter returns the first 10 remaining
candidates in catalog order, for every scoring function and every sampling
outcome alike, so neither the scorer nor the sampler is ever consulted on
this path. -/
theorem c5_caminho_reserva (st : ConsultorState) (intencao : Intencao)
    (h : intencao.caracteristicas_foco = [] ∨
         candidatosPreco st.database_celulares intencao = some []) :
    ∀ (pont : List String → Celular → Option Rat) (sample5 : List Celular → List Celular),
      filtrarCore pont sample5 st.database_celulares intencao =
        (candidatosPreco st.database_celulares intencao).map (fun l => l.take 10) ∧
      (filtrar_celulares_localmente sample5 st intencao).1 =
        (candidatosPreco st.database_celulares intencao).map (fun l => l.take 10) := by
  intro pont sample5
  have hgen : ∀ pont' : List String → Celular → Option Rat,
      filtrarCore pont' sample5 st.database_celulares intencao =
        (candidatosPreco st.database_celulares intencao).map (fun l => l.take 10) := by
    intro pont'
    cases hcp : candidatosPreco st.database_celulares intencao with
    | none => simp only [filtrarCore, hcp, Option.map_none']
    | some cands =>
      rcases h with hfoco | hvazio
      · simp only [filtrarCore, hcp, hfoco, List.isEmpty_nil, Bool.true_or, if_true,
          Option.map_some']
      · rw [hcp] at hvazio
        have hnil : cands = [] := Option.some.inj hvazio
        subst hnil
        simp only [filtrarCore, hcp, List.isEmpty_nil, Bool.or_true, if_true,
          Option.map_some']
  exact ⟨hgen pont, hgen calcular_pontuacao⟩

/-- Claim C5, witness: the empty-focus entry-tier intent over the
seven-phone catalog takes the fallback path. -/
theorem c5_testemunha :
    (intencaoEntradaVazia.caracteristicas_foco = [] ∨
     candidatosPreco stSete.database_celulares intencaoEntradaVazia = some []) ∧
    ((filtrar_celulares_localmente (fun l => l) stSete intencaoEntradaVazia).1 =
      (candidatosPreco stSete.database_celulares intencaoEntradaVazia).map
        (fun l => l.take 10)) :=
  ⟨Or.inl rfl,
   (c5_caminho_reserva stSete intencaoEntradaVazia (Or.inl rfl)
     calcular_pontuacao (fun l => l)).2⟩

/-- Claim C6, counterexample: on an active candidate with no `avaliacoes`
key, scoring the focus tag `câmera` raises (`none`) instead of
contributing zero, so the scorer is not total over catalog entries. -/
theorem c6_contraexemplo :
    calcular_pontuacao ["câmera"] celSemAvaliacoes = none ∧
    celSemAvaliacoes.ativo = true :=
  ⟨rfl, rfl⟩

/-- Claim C6, amended: scoring never raises on candidates whose evaluation
object and detailed-ratings mapping are both present (a missing leaf
rating then defaults to zero), and a tag outside the six recognized ones
contributes nothing; but a candidate missing either container makes the
scorer raise when a rating-backed tag is requested. -/
theorem c6_emendado (foco : List String) (c : Celular) (av : Avaliacoes)
    (nd : NotasDetalhadas)
    (hav : c.avaliacoes = some av) (hnd : av.notas_detalhadas = some nd) :
    (calcular_pontuacao foco c).isSome = true ∧
    (∀ t : String, t ∉ tagsReconhecidas →
      ∀ resto : List String,
        calcular_pontuacao (t :: resto) c = calcular_pontuacao resto c) := by
  constructor
  · exact pontuacaoAux_isSome hav hnd foco 0
  · intro t ht resto
    simp only [tagsReconhecidas, List.mem_cons, List.not_mem_nil, or_false, not_or] at ht
    obtain ⟨h1, h2, h3, h4, h5, h6⟩ := ht
    exact pontuacaoAux_tag_desconhecida h1 h2 h3 h4 h5 h6 c resto 0

/-- Claim C6, witness at a concrete phone carrying both containers. -/
theorem c6_testemunha :
    (cel1.avaliacoes = some (avTeste 7) ∧
     (avTeste 7).notas_detalhadas = some (ndTeste 7)) ∧
    ((calcular_pontuacao ["bateria"] cel1).isSome = true ∧
     (∀ t : String, t ∉ tagsReconhecidas →
       ∀ resto : List String,
         calcular_pontuacao (t :: resto) cel1 = calcular_pontuacao resto cel1)) :=
  ⟨⟨rfl, rfl⟩, c6_emendado ["bateria"] cel1 (avTeste 7) (ndTeste 7) rfl rfl⟩

/-- Claim C7: on an empty shortlist the synthesizer returns the empty list
and its result does not depend on the remote call at all — no remote call
is issued. -/
theorem c7_shortlist_vazia
    (remote remote' : List Celular → Intencao → Option (List Celular))
    (intencao : Intencao) :
    classificar_e_recomendar remote [] intencao = some [] ∧
    classificar_e_recomendar remote [] intencao =
      classificar_e_recomendar remote' [] intencao :=
  ⟨rfl, rfl⟩

/-- Claim C9: the filter reads the catalog and writes nothing — the state
it returns carries the catalog list unchanged, same entries in the same
order. -/
theorem c9_catalogo_inalterado (sample5 : List Celular → List Celular)
    (st : ConsultorState) (intencao : Intencao) :
    ((filtrar_celulares_localmente sample5 st intencao).2).database_celulares =
      st.database_celulares ∧
    (filtrar_celulares_localmente sample5 st intencao).2 = st :=
  ⟨rfl, rfl⟩

/-- Claim C10: with `LOG_ACCESS_TOKEN` unset or empty, the log endpoint
denies access for every supplied token — including the empty token — and
never serves the log. -/
theorem c10_token_nao_configurado (env_token : Option String)
    (h : env_token = none ∨ env_token = some "")
    (logfile : Option String) (token : String) :
    get_consultas_log env_token logfile token =
      .erro 403 "Acesso negado: Token inválido." := by
  rcases h with rfl | rfl
  · rfl
  · simp [get_consultas_log]

/-- Claim C10, witness: the empty configured secret and the empty supplied
token still deny. -/
theorem c10_testemunha :
    ((some "" : Option String) = none ∨ (some "" : Option String) = some "") ∧
    get_consultas_log (some "") (some "2025-01-01 [log]") "" =
      .erro 403 "Acesso negado: Token inválido." :=
  ⟨Or.inr rfl,
   c10_token_nao_configurado (some "") (Or.inr rfl) (some "2025-01-01 [log]") ""⟩

/-- Claim C8: with exactly one anchor retailer and at least two rotating
retailers — all pairwise distinct and the anchor outside the rotating set
— the retailer selector returns exactly 3 entries for every random
outcome, always includes the anchor, and never duplicates an entry.
`choice`, `sample2` and `shuffle` are constrained exactly by what
`random.choice`, `random.sample(…, 2)` and `random.shuffle` guarantee. -/
theorem c8_selecionar_tres (choice : List Loja → Loja)
    (sample2 shuffle : List Loja → List Loja) (st : ConsultorState) (a : Loja)
    (hanc : st.lojas_ancora = [a])
    (hrot : 2 ≤ st.lojas_rotativas.length)
    (hnodup : st.lojas_rotativas.Nodup)
    (hfora : a ∉ st.lojas_rotativas)
    (hchoice : ∀ l : List Loja, l ≠ [] → choice l ∈ l)
    (hlen2 : (sample2 st.lojas_rotativas).length = 2)
    (hsub2 : ∀ x ∈ sample2 st.lojas_rotativas, x ∈ st.lojas_rotativas)
    (hnodup2 : (sample2 st.lojas_rotativas).Nodup)
    (hshuffle : ∀ l : List Loja, List.Perm (shuffle l) l) :
    (selecionar_lojas choice sample2 shuffle st).length = 3 ∧
    a ∈ selecionar_lojas choice sample2 shuffle st ∧
    (selecionar_lojas choice sample2 shuffle st).Nodup := by
  have hchoiceA : choice [a] = a := by
    have h := hchoice [a] (by simp)
    simpa using h
  have hsel : selecionar_lojas choice sample2 shuffle st =
      (shuffle (a :: sample2 st.lojas_rotativas)).take 3 := by
    unfold selecionar_lojas
    rw [hanc]
    simp [hchoiceA, hrot]
  have hlen3 : (shuffle (a :: sample2 st.lojas_rotativas)).length = 3 := by
    rw [(hshuffle _).length_eq]
    simp [hlen2]
  have htake : (shuffle (a :: sample2 st.lojas_rotativas)).take 3 =
      shuffle (a :: sample2 st.lojas_rotativas) :=
    List.take_of_length_le (le_of_eq hlen3)
  have hnodupL : (a :: sample2 st.lojas_rotativas).Nodup :=
    List.nodup_cons.mpr ⟨fun hmem => hfora (hsub2 a hmem), hnodup2⟩
  refine ⟨?_, ?_, ?_⟩
  · rw [hsel, htake, hlen3]
  · rw [hsel, htake]
    exact (hshuffle _).mem_iff.mpr (List.mem_cons_self a _)
  · rw [hsel, htake]
    exact (hshuffle _).symm.nodup hnodupL

/-- Claim C8, witness: one anchor, two rotating retailers, a sampler that
takes the first two and an identity shuffle. -/
theorem c8_testemunha :
    (stLojas.lojas_ancora = [lojaA] ∧ 2 ≤ stLojas.lojas_rotativas.length ∧
     stLojas.lojas_rotativas.Nodup ∧ lojaA ∉ stLojas.lojas_rotativas) ∧
    ((selecionar_lojas (fun l => l.headD lojaA) (fun l => l.take 2) (fun l => l)
        stLojas).length = 3 ∧
     lojaA ∈ selecionar_lojas (fun l => l.headD lojaA) (fun l => l.take 2) (fun l => l)
        stLojas ∧
     (selecionar_lojas (fun l => l.headD lojaA) (fun l => l.take 2) (fun l => l)
        stLojas).Nodup) :=
  ⟨⟨rfl, by decide, by decide, by decide⟩,
   c8_selecionar_tres (fun l => l.headD lojaA) (fun l => l.take 2) (fun l => l)
     stLojas lojaA rfl (by decide) (by decide) (by decide)
     (fun l hl => by
       cases l with
       | nil => exact absurd rfl hl
       | cons x xs => exact List.mem_cons_self x xs)
     (by decide)
     (by decide)
     (by decide)
     (fun l => List.Perm.refl l)⟩

/-- Claim C4: when the intent carries a recognized price tier, every
element of the filter's output is active and carries exactly that tier. -/
theorem c4_faixa_e_ativo (sample5 : List Celular → List Celular)
    (st : ConsultorState) (intencao : Intencao) (faixa : String)
    (out : List Celular)
    (Hsub : ∀ l, ∀ x ∈ sample5 l, x ∈ l)
    (hfaixa : intencao.faixa_preco_categoria = some faixa)
    (hrec : faixa ∈ faixasReconhecidas)
    (hout : (filtrar_celulares_localmente sample5 st intencao).1 = some out) :
    ∀ c ∈ out, c.ativo = true ∧
      ∃ k, c.compra = some k ∧ k.faixa_preco_categoria = some faixa := by
  have hne : faixa ≠ "" := by
    simp only [faixasReconhecidas, List.mem_cons, List.not_mem_nil, or_false] at hrec
    rcases hrec with rfl | rfl | rfl | rfl | rfl <;> decide
  intro c hc
  have hfc : filtrarCore calcular_pontuacao sample5 st.database_celulares intencao =
      some out := hout
  obtain ⟨cands, hcands, hcmem⟩ := filtrarCore_mem Hsub hfc c hc
  rw [candidatosPreco_faixa hfaixa hne] at hcands
  obtain ⟨hin, k, hk, hkf⟩ := mem_filtroPreco hcands c hcmem
  refine ⟨?_, k, hk, hkf⟩
  have hfil := List.mem_filter.mp hin
  simpa using hfil.2

/-- Claim C4, witness: the entry-tier battery intent over the seven
entry-tier phones; the identity sample keeps all of the top seven. -/
theorem c4_testemunha :
    (intencaoEntradaBateria.faixa_preco_categoria = some "Entrada" ∧
     "Entrada" ∈ faixasReconhecidas ∧
     (filtrar_celulares_localmente (fun l => l) stSete intencaoEntradaBateria).1 =
       some dbSete) ∧
    (∀ c ∈ dbSete, c.ativo = true ∧
      ∃ k, c.compra = some k ∧ k.faixa_preco_categoria = some "Entrada") :=
  ⟨⟨rfl, by decide, by
     simp [filtrar_celulares_localmente, filtrarCore, candidatosPreco, candidatosAtivos,
       filtroPreco, emparelhar, calcular_pontuacao, pontuacaoAux, notaDetalhada,
       ordenaDesc, insereDesc, dbSete, stSete, intencaoEntradaBateria,
       cel1, cel2, cel3, cel4, cel5, cel6, cel7, celularTeste, avTeste, ndTeste]
     norm_num⟩,
   c4_faixa_e_ativo (fun l => l) stSete intencaoEntradaBateria "Entrada" dbSete
     (fun _ _ hx => hx) rfl (by decide)
     (by
       simp [filtrar_celulares_localmente, filtrarCore, candidatosPreco, candidatosAtivos,
         filtroPreco, emparelhar, calcular_pontuacao, pontuacaoAux, notaDetalhada,
         ordenaDesc, insereDesc, dbSete, stSete, intencaoEntradaBateria,
         cel1, cel2, cel3, cel4, cel5, cel6, cel7, celularTeste, avTeste, ndTeste]
       norm_num)⟩

/-- Claim C2, counterexample: over a seven-candidate catalog with distinct
battery scores, the sampling outcome that drops the two best-scored
candidates is a legitimate `random.sample(top_candidatos, 5)` outcome
(five entries, all from the top seven, no duplicates); the filter then
returns `cel7` (score 1) while excluding `cel1` (score 7), which was among
the initial top seven — so a returned candidate scores strictly below a
non-returned top-seven candidate. -/
theorem c2_contraexemplo :
    filtrarCore calcular_pontuacao (fun l => l.drop 2) dbSete intencaoBateria =
      some [cel3, cel4, cel5, cel6, cel7] ∧
    ordenadosDe calcular_pontuacao dbSete intencaoBateria = some ordSete ∧
    ((ordSete.take 7).map Prod.fst).drop 2 = [cel3, cel4, cel5, cel6, cel7] ∧
    (((ordSete.take 7).map Prod.fst).drop 2).length = 5 ∧
    (((ordSete.take 7).map Prod.fst).drop 2).Nodup ∧
    (∀ x ∈ ((ordSete.take 7).map Prod.fst).drop 2, x ∈ (ordSete.take 7).map Prod.fst) ∧
    cel7 ∈ [cel3, cel4, cel5, cel6, cel7] ∧
    cel1 ∈ (ordSete.take 7).map Prod.fst ∧
    cel1 ∉ [cel3, cel4, cel5, cel6, cel7] ∧
    calcular_pontuacao ["bateria"] cel7 = some 1 ∧
    calcular_pontuacao ["bateria"] cel1 = some 7 ∧
    (1 : Rat) < 7 := by
  refine ⟨?_, ?_, ?_, ?_, ?_, ?_, ?_, ?_, ?_, ?_, ?_, ?_⟩
  · simp [filtrarCore, candidatosPreco, candidatosAtivos, emparelhar, calcular_pontuacao,
      pontuacaoAux, notaDetalhada, ordenaDesc, insereDesc, dbSete, intencaoBateria,
      cel1, cel2, cel3, cel4, cel5, cel6, cel7, celularTeste, avTeste, ndTeste]
    norm_num
  · simp [ordenadosDe, candidatosPreco, candidatosAtivos, emparelhar, calcular_pontuacao,
      pontuacaoAux, notaDetalhada, ordenaDesc, insereDesc, dbSete, intencaoBateria, ordSete,
      cel1, cel2, cel3, cel4, cel5, cel6, cel7, celularTeste, avTeste, ndTeste]
    norm_num
  · simp [ordSete]
  · simp [ordSete]
  · simp [ordSete, cel1, cel2, cel3, cel4, cel5, cel6, cel7, celularTeste, avTeste, ndTeste,
      List.Nodup]
  · simp [ordSete]
  · simp
  · simp [ordSete]
  · simp [ordSete, cel1, cel2, cel3, cel4, cel5, cel6, cel7, celularTeste, avTeste, ndTeste]
  · simp [calcular_pontuacao, pontuacaoAux, notaDetalhada, cel7, celularTeste, avTeste, ndTeste]
  · simp [calcular_pontuacao, pontuacaoAux, notaDetalhada, cel1, celularTeste, avTeste, ndTeste]
  · norm_num

/-- Claim C2, amended: for a non-empty `featureFocus` the filter's output
has length at most 5 and every returned candidate comes from the initial
top seven by score; every returned candidate's score is ≥ the score of
every price-tier-matching candidate NOT among the initial top seven (the
random sample may, however, discard any of the top seven regardless of
score). -/
theorem c2_emendado (sample5 : List Celular → List Celular) (st : ConsultorState)
    (intencao : Intencao) (out : List Celular)
    (Hsub : ∀ l, ∀ x ∈ sample5 l, x ∈ l)
    (Hlen : ∀ l : List Celular, 5 < l.length → (sample5 l).length = 5)
    (hfoco : intencao.caracteristicas_foco ≠ [])
    (hout : (filtrar_celulares_localmente sample5 st intencao).1 = some out) :
    out.length ≤ 5 ∧
    ∃ ord, ordenadosDe calcular_pontuacao st.database_celulares intencao = some ord ∧
      (∀ c ∈ out, c ∈ (ord.take 7).map Prod.fst) ∧
      (∀ c ∈ out, ∃ sc, calcular_pontuacao intencao.caracteristicas_foco c = some sc ∧
        ∀ d ∈ ord.drop 7, d.2 ≤ sc) := by
  have h : filtrarCore calcular_pontuacao sample5 st.database_celulares intencao =
      some out := hout
  cases hcp : candidatosPreco st.database_celulares intencao with
  | none =>
    simp only [filtrarCore, hcp] at h
    exact Option.noConfusion h
  | some cands =>
    have hfoco' : intencao.caracteristicas_foco.isEmpty = false := by
      cases hfl : intencao.caracteristicas_foco with
      | nil => exact absurd hfl hfoco
      | cons a as => rfl
    simp only [filtrarCore, hcp, hfoco', Bool.false_or] at h
    split at h
    next hcond =>
      have hcnil : cands = [] := by
        cases cands with
        | nil => rfl
        | cons x xs => simp at hcond
      subst hcnil
      cases h
      refine ⟨by simp, [], ?_, by simp, by simp⟩
      simp [ordenadosDe, hcp, emparelhar, ordenaDesc]
    next hcond =>
      cases he : emparelhar (calcular_pontuacao intencao.caracteristicas_foco) cands with
      | none =>
        simp only [he] at h
        exact Option.noConfusion h
      | some scored =>
        simp only [he] at h
        have hcase : (5 < (((ordenaDesc scored).take 7).map Prod.fst).length ∧
            out = sample5 (((ordenaDesc scored).take 7).map Prod.fst)) ∨
            (out = ((ordenaDesc scored).take 7).map Prod.fst ∧
             (((ordenaDesc scored).take 7).map Prod.fst).length ≤ 5) := by
          split at h
          next h5 => exact Or.inl ⟨h5, (Option.some.inj h).symm⟩
          next h5 => exact Or.inr ⟨(Option.some.inj h).symm, le_of_not_lt h5⟩
        have hmemtop : ∀ c ∈ out, c ∈ ((ordenaDesc scored).take 7).map Prod.fst := by
          intro c hc
          rcases hcase with ⟨h5, hs⟩ | ⟨hs, h5⟩
          · rw [hs] at hc
            exact Hsub _ c hc
          · rw [hs] at hc
            exact hc
        refine ⟨?_, ordenaDesc scored, ?_, hmemtop, ?_⟩
        · rcases hcase with ⟨h5, hs⟩ | ⟨hs, h5⟩
          · rw [hs, Hlen _ h5]
          · rw [hs]
            exact h5
        · simp [ordenadosDe, hcp, he]
        · intro c hc
          rcases List.mem_map.mp (hmemtop c hc) with ⟨p, hp, rfl⟩
          refine ⟨p.2, ?_, ?_⟩
          · have hp2 : p ∈ scored :=
              (ordenaDesc_perm scored).mem_iff.mp (List.mem_of_mem_take hp)
            exact emparelhar_pont he p hp2
          · intro d hd
            exact pairwise_take_drop (ordenaDesc_pairwise scored) 7 p hp d hd

/-- Claim C2, witness for the amended theorem: the battery intent over the
seven-phone catalog with the take-five sampling outcome. -/
theorem c2_testemunha :
    ((∀ l : List Celular, ∀ x ∈ l.take 5, x ∈ l) ∧
     (∀ l : List Celular, 5 < l.length → (l.take 5).length = 5) ∧
     intencaoBateria.caracteristicas_foco ≠ [] ∧
     (filtrar_celulares_localmente (fun l => l.take 5) stSete intencaoBateria).1 =
       some [cel1, cel2, cel3, cel4, cel5]) ∧
    ([cel1, cel2, cel3, cel4, cel5].length ≤ 5 ∧
     ∃ ord, ordenadosDe calcular_pontuacao stSete.database_celulares intencaoBateria =
         some ord ∧
       (∀ c ∈ [cel1, cel2, cel3, cel4, cel5], c ∈ (ord.take 7).map Prod.fst) ∧
       (∀ c ∈ [cel1, cel2, cel3, cel4, cel5], ∃ sc,
         calcular_pontuacao intencaoBateria.caracteristicas_foco c = some sc ∧
         ∀ d ∈ ord.drop 7, d.2 ≤ sc)) :=
  ⟨⟨fun _ _ hx => List.mem_of_mem_take hx,
    fun l h5 => by simp [List.length_take]; omega,
    by decide,
    by
      simp [filtrar_celulares_localmente, filtrarCore, candidatosPreco, candidatosAtivos,
        emparelhar, calcular_pontuacao, pontuacaoAux, notaDetalhada, ordenaDesc, insereDesc,
        dbSete, stSete, intencaoBateria, cel1, cel2, cel3, cel4, cel5, cel6, cel7,
        celularTeste, avTeste, ndTeste]
      norm_num⟩,
   c2_emendado (fun l => l.take 5) stSete intencaoBateria [cel1, cel2, cel3, cel4, cel5]
     (fun _ _ hx => List.mem_of_mem_take hx)
     (fun l h5 => by simp [List.length_take]; omega)
     (by decide)
     (by
       simp [filtrar_celulares_localmente, filtrarCore, candidatosPreco, candidatosAtivos,
         emparelhar, calcular_pontuacao, pontuacaoAux, notaDetalhada, ordenaDesc, insereDesc,
         dbSete, stSete, intencaoBateria, cel1, cel2, cel3, cel4, cel5, cel6, cel7,
         celularTeste, avTeste, ndTeste]
       norm_num)⟩

/-- Claim C1, counterexample: when the synthesizer returns a single
product (a legitimate parsed reply), the pipeline answers with the
presenter's insufficient-recommendations apology — "Não encontrei
recomendações suficientes." — which is none of the five claimed outcomes:
it is not a rendered success document, not either of the two listed
apologies, and not an error response. -/
theorem c1_contraexemplo :
    consultar_celular (some stUm) captarVazio remoteUm (fun l => l) (fun _ => "")
      (fun l => l.headD lojaA) (fun l => l.take 2) (fun l => l) "quero um celular" =
      .ok msgInsuficiente ∧
    ¬ CincoResultados (.ok msgInsuficiente) := by
  constructor
  · simp [consultar_celular, gerar_recomendacao_completa, captarVazio, remoteUm,
      filtrar_celulares_localmente, filtrarCore, candidatosPreco, candidatosAtivos, stUm,
      celularTeste, classificar_e_recomendar, apresentar_resultados]
  · intro hfive
    rcases hfive with h | h | h | h | ⟨t, h⟩
    · exact absurd h (by decide)
    · exact absurd h (by decide)
    · exact absurd h (by decide)
    · exact absurd h (by decide)
    · exact msgInsuficiente_ne_sucesso t (ApiResult.ok.inj h)

/-- Claim C1, amended: for every configuration of the collaborators and
every request, the recommendation endpoint's user-visible result is one of
exactly SIX outcomes: the five claimed ones plus the
insufficient-recommendations apology issued when synthesis yields a
non-empty list of fewer than three products. -/
theorem c1_emendado (consultor : Option ConsultorState)
    (captar : String → Option (Option Intencao))
    (remote : List Celular → Intencao → Option (List Celular))
    (sample5 : List Celular → List Celular) (fstr : Rat → String)
    (choice : List Loja → Loja) (sample2 shuffle : List Loja → List Loja)
    (query : String) :
    SeisResultados (consultar_celular consultor captar remote sample5 fstr choice
      sample2 shuffle query) := by
  unfold SeisResultados
  cases consultor with
  | none => exact Or.inl rfl
  | some st =>
    cases hg : gerar_recomendacao_completa captar remote sample5 fstr choice sample2
        shuffle st query with
    | none =>
      have hres : consultar_celular (some st) captar remote sample5 fstr choice sample2
          shuffle query = .erro 500 msgErroInterno := by
        simp only [consultar_celular, hg]
      rw [hres]
      exact Or.inr (Or.inl rfl)
    | some s =>
      have hres : consultar_celular (some st) captar remote sample5 fstr choice sample2
          shuffle query = .ok s := by
        simp only [consultar_celular, hg]
      rw [hres]
      rcases gerar_casos captar remote sample5 fstr choice sample2 shuffle st query s hg
        with h1 | h2 | h3 | ⟨t, ht⟩
      · exact Or.inr (Or.inr (Or.inl (by rw [h1])))
      · exact Or.inr (Or.inr (Or.inr (Or.inl (by rw [h2]))))
      · exact Or.inr (Or.inr (Or.inr (Or.inr (Or.inl (by rw [h3])))))
      · exact Or.inr (Or.inr (Or.inr (Or.inr (Or.inr ⟨t, by rw [ht]⟩))))
